import Mathlib

/-!
Shallow embedding of the task-lifecycle service under verification.

Source files embedded:
  - src/app/models/task.py          (TaskState enum, Task / TaskLog rows)
  - src/app/api/routes/tasks.py     (create_task, get_task, get_task_logs,
                                     execute_task, replan_task)
  - src/app/api/routes/email.py     (email_webhook normalization)
  - src/app/api/schemas.py          (request / response models)

The SQLAlchemy session is modelled as an explicit record `Db` holding the
persisted Task and TaskLog rows; each route handler becomes a pure function
threading the `Db`.  An `HTTPException` raised before any mutation becomes an
`Except.error` paired with the unchanged `Db`.  Server-generated timestamps
(`created_at`, `updated_at`, log `timestamp`) are elided: no claim depends on
them.  JSON objects are modelled as opaque association lists.
-/

namespace TaskApp

/-- Opaque model of a JSON object (mapping), carried through unchanged. -/
abbrev JsonObj := List (String × String)

/-- Enum `TaskState` from src/app/models/task.py lines 15-25. -/
inductive TaskState where
  | INIT
  | GATHER_INFO
  | RESEARCH
  | READY_TO_EXECUTE
  | CALL_IN_PROGRESS
  | AWAITING_USER_INPUT
  | COMPLETED
  | FAILED
  | CANCELLED
deriving DecidableEq, Repr

/-- The string value of a `TaskState` member (`TaskState.X.value` in the
source; the `state` column itself is a plain `String(50)`). -/
def TaskState.value : TaskState → String
  | .INIT => "INIT"
  | .GATHER_INFO => "GATHER_INFO"
  | .RESEARCH => "RESEARCH"
  | .READY_TO_EXECUTE => "READY_TO_EXECUTE"
  | .CALL_IN_PROGRESS => "CALL_IN_PROGRESS"
  | .AWAITING_USER_INPUT => "AWAITING_USER_INPUT"
  | .COMPLETED => "COMPLETED"
  | .FAILED => "FAILED"
  | .CANCELLED => "CANCELLED"

/-- A string is one of the nine defined enum values
(src/app/models/task.py lines 15-25). -/
def validState (s : String) : Bool :=
  s == TaskState.INIT.value || s == TaskState.GATHER_INFO.value ||
  s == TaskState.RESEARCH.value || s == TaskState.READY_TO_EXECUTE.value ||
  s == TaskState.CALL_IN_PROGRESS.value || s == TaskState.AWAITING_USER_INPUT.value ||
  s == TaskState.COMPLETED.value || s == TaskState.FAILED.value ||
  s == TaskState.CANCELLED.value

/-- A string is one of the three terminal state values
(spec section 4.1: COMPLETED, FAILED, CANCELLED). -/
def isTerminalStr (s : String) : Bool :=
  s == TaskState.COMPLETED.value || s == TaskState.FAILED.value ||
  s == TaskState.CANCELLED.value

/-- Row model `Task`, src/app/models/task.py lines 45-59.  The `state` column is a
plain string (`String(50)`); timestamps elided. -/
structure Task where
  id : String
  user_id : String
  goal : String
  state : String
  metadata_json : Option JsonObj
deriving DecidableEq, Repr

/-- Row model `TaskLog`, src/app/models/task.py lines 62-73; timestamp elided. -/
structure TaskLog where
  id : String
  task_id : String
  event_type : String
  payload_json : JsonObj
deriving DecidableEq, Repr

/-- The persisted store: Task rows and TaskLog rows. -/
structure Db where
  tasks : List Task
  logs : List TaskLog
deriving DecidableEq, Repr

/-- Lookup `db.query(Task).filter(Task.id == task_id).first()`:
first Task row whose id matches. -/
def findTask (db : Db) (task_id : String) : Option Task :=
  db.tasks.find? (fun t => t.id == task_id)

/-- The state of the task with the given id, if present. -/
def stateIn (db : Db) (task_id : String) : Option String :=
  (findTask db task_id).map (fun t => t.state)

/-- Relationship `task.logs`: the TaskLog rows foreign-keyed to the task. -/
def logsOf (db : Db) (task_id : String) : List TaskLog :=
  db.logs.filter (fun l => l.task_id == task_id)

/-- The committed effect of mutating the found task row and committing:
every row with the matching id is replaced (ids are unique primary keys,
so at most one row is affected). -/
def setTask (db : Db) (task_id : String) (t : Task) : Db :=
  { db with tasks := db.tasks.map (fun x => if x.id == task_id then t else x) }

/-- Errors: the `HTTPException`s raised by the route handlers. -/
inductive ApiError where
  | NotFound (detail : String)
  | BadRequest (detail : String)
deriving DecidableEq, Repr

/-- The result of a route was a 404 `HTTPException`. -/
def isNotFound {α : Type} : Except ApiError α → Bool
  | .error (.NotFound _) => true
  | _ => false

/-- The result of a route was a 400 `HTTPException` (client rejection). -/
def isRejected {α : Type} : Except ApiError α → Bool
  | .error (.BadRequest _) => true
  | _ => false

/-- The route returned a normal response. -/
def isSuccess {α : Type} : Except ApiError α → Bool
  | .ok _ => true
  | _ => false

/-- Schema `CreateTaskRequest`, src/app/api/schemas.py lines 12-27: goal, user_id
and optional metadata; the request carries no state field. -/
structure CreateTaskRequest where
  goal : String
  user_id : String
  metadata_json : Option JsonObj
deriving DecidableEq, Repr

/-- Schema `TaskActionResponse`, src/app/api/schemas.py lines 49-53. -/
structure TaskActionResponse where
  status : String
  task_id : String
  message : String
deriving DecidableEq, Repr

/-- Schema `TaskResponse`, src/app/api/schemas.py lines 30-38; timestamps elided. -/
structure TaskResponse where
  id : String
  user_id : String
  goal : String
  state : String
  metadata_json : Option JsonObj
deriving DecidableEq, Repr

/-- Schema `TaskLogResponse`, src/app/api/schemas.py lines 41-46; timestamp elided. -/
structure TaskLogResponse where
  id : String
  event_type : String
  payload_json : JsonObj
deriving DecidableEq, Repr

/-- Route `create_task`, src/app/api/routes/tasks.py lines 21-43.  The fresh
primary key produced by `uuid.uuid4` is passed in as `newId`. -/
def create_task (body : CreateTaskRequest) (newId : String) (db : Db) :
    TaskActionResponse × Db :=
  let task : Task :=
    { id := newId
      user_id := body.user_id
      goal := body.goal
      state := TaskState.INIT.value
      metadata_json := body.metadata_json }
  ({ status := "success"
     task_id := newId
     message := "Task created successfully" },
   { db with tasks := db.tasks ++ [task] })

/-- Route `get_task`, src/app/api/routes/tasks.py lines 80-101. -/
def get_task (task_id : String) (db : Db) :
    Except ApiError TaskResponse × Db :=
  match findTask db task_id with
  | none =>
      (.error (.NotFound ("Task with id " ++ task_id ++ " not found")), db)
  | some task =>
      (.ok { id := task.id
             user_id := task.user_id
             goal := task.goal
             state := task.state
             metadata_json := task.metadata_json }, db)

/-- Route `get_task_logs`, src/app/api/routes/tasks.py lines 104-127. -/
def get_task_logs (task_id : String) (db : Db) :
    Except ApiError (List TaskLogResponse) × Db :=
  match findTask db task_id with
  | none =>
      (.error (.NotFound ("Task with id " ++ task_id ++ " not found")), db)
  | some task =>
      (.ok ((logsOf db task.id).map (fun l =>
        { id := l.id
          event_type := l.event_type
          payload_json := l.payload_json })), db)

/-- Route `execute_task`, src/app/api/routes/tasks.py lines 130-163: 404 when the
task is missing, 400 when its state is COMPLETED, otherwise the state is set
to CALL_IN_PROGRESS and committed.  No TaskLog row is written. -/
def execute_task (task_id : String) (db : Db) :
    Except ApiError TaskActionResponse × Db :=
  match findTask db task_id with
  | none =>
      (.error (.NotFound ("Task with id " ++ task_id ++ " not found")), db)
  | some task =>
      if task.state == TaskState.COMPLETED.value then
        (.error (.BadRequest "Task is already completed"), db)
      else
        let task2 := { task with state := TaskState.CALL_IN_PROGRESS.value }
        (.ok { status := "success"
               task_id := task2.id
               message := "Task execution started" },
         setTask db task_id task2)

/-- Route `replan_task`, src/app/api/routes/tasks.py lines 166-192: 404 when the
task is missing, otherwise the state is set to INIT unconditionally and
committed.  No TaskLog row is written. -/
def replan_task (task_id : String) (db : Db) :
    Except ApiError TaskActionResponse × Db :=
  match findTask db task_id with
  | none =>
      (.error (.NotFound ("Task with id " ++ task_id ++ " not found")), db)
  | some task =>
      let task2 := { task with state := TaskState.INIT.value }
      (.ok { status := "success"
             task_id := task2.id
             message := "Task replanning initiated" },
       setTask db task_id task2)

/-- Schema `EmailWebhookRequest`, src/app/api/schemas.py lines 76-91.  The parsed
pydantic model: `from_` carries payload key "from", `body` also carries
payload key "body-plain" via its alias; all fields optional. -/
structure EmailWebhookRequest where
  from_ : Option String := none
  sender : Option String := none
  From : Option String := none
  subject : Option String := none
  Subject : Option String := none
  text : Option String := none
  plain : Option String := none
  body : Option String := none
  body_plain : Option String := none
deriving DecidableEq, Repr

/-- Schema `EmailWebhookResponse`, src/app/api/schemas.py lines 93-98. -/
structure EmailWebhookResponse where
  status : String
  from_addr : Option String
  subject : Option String
  message : String
deriving DecidableEq, Repr

/-- Python `x or d` on an `Optional[str]` left operand: `d` when `x` is
`None` or the empty string, else the string in `x`. -/
def pyOrStr (x : Option String) (d : String) : String :=
  match x with
  | none => d
  | some s => if s = "" then d else s

/-- The field resolution inside `email_webhook`,
src/app/api/routes/email.py lines 73-90: (from_addr, subject, text_body),
each an `or`-chain over the synonymous fields. -/
def normalizeEmail (r : EmailWebhookRequest) : String × String × String :=
  (pyOrStr r.from_ (pyOrStr r.sender (pyOrStr r.From "unknown")),
   pyOrStr r.subject (pyOrStr r.Subject "(no subject)"),
   pyOrStr r.text (pyOrStr r.plain (pyOrStr r.body (pyOrStr r.body_plain ""))))

/-- Route `email_webhook`, src/app/api/routes/email.py lines 62-111: resolves the
fields, logs, and returns status "received"; no database dependency. -/
def email_webhook (r : EmailWebhookRequest) : EmailWebhookResponse :=
  { status := "received"
    from_addr := some (normalizeEmail r).1
    subject := some (normalizeEmail r).2.1
    message := "Email received and logged for processing" }

/-- The email webhook seen at the application level against the store: the
handler declares no database session dependency and touches no Task or
TaskLog row, so it maps (request, store) to (response, unchanged store). -/
def email_webhook_route (r : EmailWebhookRequest) (db : Db) :
    EmailWebhookResponse × Db :=
  (email_webhook r, db)

/-- Spec-side resolution: over a fixed priority list of optional fields, the
first non-empty value wins, else the default. -/
def firstNonEmpty (fields : List (Option String)) (default : String) : String :=
  match fields.findSome?
      (fun o => o.bind (fun s => if s = "" then none else some s)) with
  | some s => s
  | none => default

/-- The store as a whole satisfies the state invariant: every task row's
state column holds one of the nine defined enum values. -/
def dbStatesValid (db : Db) : Bool :=
  db.tasks.all (fun t => validState t.state)

/-- Concrete fixture: a task stuck in the terminal FAILED state. -/
def taskFailed : Task :=
  { id := "t1", user_id := "u1", goal := "pay the bill",
    state := TaskState.FAILED.value, metadata_json := none }

/-- Concrete fixture: a store holding only `taskFailed`. -/
def dbFailed : Db := { tasks := [taskFailed], logs := [] }

/-- Concrete fixture: a task in READY_TO_EXECUTE. -/
def taskReady : Task :=
  { id := "t1", user_id := "u1", goal := "pay the bill",
    state := TaskState.READY_TO_EXECUTE.value, metadata_json := none }

/-- Concrete fixture: a store holding only `taskReady`. -/
def dbReady : Db := { tasks := [taskReady], logs := [] }

/-- Concrete fixture: an empty store. -/
def dbEmpty : Db := { tasks := [], logs := [] }

/-- Concrete fixture: a create-task request. -/
def reqA : CreateTaskRequest :=
  { goal := "book a flight", user_id := "u2",
    metadata_json := some [("k", "v")] }

/- ### Helper lemmas -/

/-- A matching row found by `find?` satisfies the predicate: its id equals
the searched id. -/
theorem findTask_id_beq (db : Db) (tid : String) (t : Task)
    (h : findTask db tid = some t) : (t.id == tid) = true := by
  unfold findTask at h
  have hp := List.find?_some h
  exact hp

/-- List-level core of `findTask_setTask`: replacing every row matching the
id keeps the lookup hitting, now on the replacement row. -/
theorem find?_map_update (tid : String) (t2 : Task)
    (h2 : (t2.id == tid) = true) :
    ∀ (l : List Task) (t : Task), l.find? (fun x => x.id == tid) = some t →
      (l.map (fun x => if x.id == tid then t2 else x)).find?
        (fun x => x.id == tid) = some t2 := by
  intro l
  induction l with
  | nil => intro t h; simp at h
  | cons a as ih =>
    intro t h
    by_cases ha : a.id = tid
    · rw [List.map_cons]
      have hfa : (if (a.id == tid) = true then t2 else a) = t2 := by simp [ha]
      rw [hfa]
      exact List.find?_cons_of_pos _ h2
    · have ha2 : ¬ ((a.id == tid) = true) := by simp [ha]
      have h3 : List.find? (fun x : Task => x.id == tid) (a :: as) =
          List.find? (fun x : Task => x.id == tid) as :=
        List.find?_cons_of_neg _ ha2
      rw [h3] at h
      rw [List.map_cons]
      have hfa : (if (a.id == tid) = true then t2 else a) = a := by simp [ha]
      rw [hfa]
      have h4 : List.find? (fun x : Task => x.id == tid)
            (a :: List.map (fun x => if x.id == tid then t2 else x) as) =
          List.find? (fun x : Task => x.id == tid)
            (List.map (fun x => if x.id == tid then t2 else x) as) :=
        List.find?_cons_of_neg _ ha2
      rw [h4]
      exact ih t h

/-- After `setTask`, looking the task id up again yields the new row,
provided a row with that id existed before. -/
theorem findTask_setTask (db : Db) (tid : String) (t t2 : Task)
    (h : findTask db tid = some t) (h2 : (t2.id == tid) = true) :
    findTask (setTask db tid t2) tid = some t2 :=
  find?_map_update tid t2 h2 db.tasks t h

/-- List-level core of `dbStatesValid_setTask`: pointwise replacement by a
valid row preserves validity of every row. -/
theorem all_valid_map_update (tid : String) (t2 : Task)
    (h2 : validState t2.state = true) :
    ∀ l : List Task, l.all (fun t => validState t.state) = true →
      (l.map (fun x => if x.id == tid then t2 else x)).all
        (fun t => validState t.state) = true := by
  intro l
  induction l with
  | nil => intro h; simp
  | cons a as ih =>
    intro h
    simp only [List.all_cons, Bool.and_eq_true] at h
    by_cases ha : a.id = tid
    · rw [List.map_cons]
      have hfa : (if (a.id == tid) = true then t2 else a) = t2 := by simp [ha]
      rw [hfa]
      simp only [List.all_cons, Bool.and_eq_true]
      exact ⟨h2, ih h.2⟩
    · rw [List.map_cons]
      have hfa : (if (a.id == tid) = true then t2 else a) = a := by simp [ha]
      rw [hfa]
      simp only [List.all_cons, Bool.and_eq_true]
      exact ⟨h.1, ih h.2⟩

/-- Update via `setTask` with a row whose state is valid preserves the store-wide state
invariant. -/
theorem dbStatesValid_setTask (db : Db) (tid : String) (t2 : Task)
    (h2 : validState t2.state = true) (h : dbStatesValid db = true) :
    dbStatesValid (setTask db tid t2) = true :=
  all_valid_map_update tid t2 h2 db.tasks h

/-- When `find?` misses the first list, searching the concatenation searches
the second list. -/
theorem find?_append_of_none {α : Type} (p : α → Bool) (l1 l2 : List α)
    (h : l1.find? p = none) : (l1 ++ l2).find? p = l2.find? p := by
  induction l1 with
  | nil => simp
  | cons a as ih =>
    by_cases ha : p a = true
    · simp [List.find?_cons, ha] at h
    · simp only [List.find?_cons, ha, cond_false] at h
      simp [List.find?_cons, ha, ih h]

/-- Unfolding lemma: resolution over a priority list peels one field with
Python `or` semantics. -/
theorem firstNonEmpty_cons (x : Option String) (rest : List (Option String))
    (d : String) :
    firstNonEmpty (x :: rest) d = pyOrStr x (firstNonEmpty rest d) := by
  cases x with
  | none => simp [firstNonEmpty, pyOrStr, List.findSome?]
  | some s =>
    by_cases hs : s = ""
    · simp [firstNonEmpty, pyOrStr, List.findSome?, hs]
    · simp [firstNonEmpty, pyOrStr, List.findSome?, hs]

/-- Resolution over an empty priority list yields the default. -/
theorem firstNonEmpty_nil (d : String) : firstNonEmpty [] d = d := rfl

/- ### Claims -/

/-- C1 (counterexample): terminal states are not absorbing.  A task in the
terminal state FAILED does not stay unchanged under an execute event: its
state becomes CALL_IN_PROGRESS. -/
theorem C1_counterexample :
    stateIn dbFailed "t1" = some TaskState.FAILED.value ∧
    stateIn (execute_task "t1" dbFailed).2 "t1" =
      some TaskState.CALL_IN_PROGRESS.value ∧
    TaskState.CALL_IN_PROGRESS.value ≠ TaskState.FAILED.value := by
  decide

/-- C1 (amended): under execute, a COMPLETED task is left unchanged (the
request is rejected), while execute from FAILED or CANCELLED moves the task
to CALL_IN_PROGRESS, and replan resets every state, terminal ones included,
to INIT — so terminal states are not absorbing. -/
theorem C1_amended (db : Db) (tid : String) (t : Task)
    (hfind : findTask db tid = some t) :
    (t.state = TaskState.COMPLETED.value → (execute_task tid db).2 = db) ∧
    (t.state = TaskState.FAILED.value ∨ t.state = TaskState.CANCELLED.value →
      stateIn (execute_task tid db).2 tid =
        some TaskState.CALL_IN_PROGRESS.value) ∧
    stateIn (replan_task tid db).2 tid = some TaskState.INIT.value := by
  have hid := findTask_id_beq db tid t hfind
  refine ⟨?_, ?_, ?_⟩
  · intro hc
    simp [execute_task, hfind, hc]
  · intro hfc
    have hne : (t.state == TaskState.COMPLETED.value) = false := by
      rcases hfc with h | h <;> rw [h] <;> decide
    have hset := findTask_setTask db tid t
      { t with state := TaskState.CALL_IN_PROGRESS.value } hfind hid
    simp [execute_task, hfind, hne, stateIn, hset]
  · have hset := findTask_setTask db tid t
      { t with state := TaskState.INIT.value } hfind hid
    simp [replan_task, hfind, stateIn, hset]

/-- C1 (amended) witness: the amended statement instantiated at the
concrete FAILED task. -/
theorem C1_amended_witness :
    (taskFailed.state = TaskState.COMPLETED.value →
      (execute_task "t1" dbFailed).2 = dbFailed) ∧
    (taskFailed.state = TaskState.FAILED.value ∨
        taskFailed.state = TaskState.CANCELLED.value →
      stateIn (execute_task "t1" dbFailed).2 "t1" =
        some TaskState.CALL_IN_PROGRESS.value) ∧
    stateIn (replan_task "t1" dbFailed).2 "t1" =
      some TaskState.INIT.value :=
  C1_amended dbFailed "t1" taskFailed (by decide)

/-- C2: contrary to the one-log-entry-per-ingest guarantee, the event
operations write no TaskLog row at all: execute and replan leave the log
table untouched for every store and task id. -/
theorem C2_no_log_append (db : Db) (tid : String) :
    (execute_task tid db).2.logs = db.logs ∧
    (replan_task tid db).2.logs = db.logs := by
  constructor
  · rcases hf : findTask db tid with _ | t
    · simp [execute_task, hf]
    · simp only [execute_task, hf]
      split
      · rfl
      · simp [setTask]
  · rcases hf : findTask db tid with _ | t
    · simp [replan_task, hf]
    · simp [replan_task, hf, setTask]

/-- C4: for an existing task, execute is rejected with a client error
exactly when the state is COMPLETED; from every non-terminal state it is
accepted and the state becomes CALL_IN_PROGRESS. -/
theorem C4_execute_guard (db : Db) (tid : String) (t : Task)
    (hfind : findTask db tid = some t) :
    (isRejected (execute_task tid db).1 = true ↔
      t.state = TaskState.COMPLETED.value) ∧
    (isTerminalStr t.state = false →
      isSuccess (execute_task tid db).1 = true ∧
      stateIn (execute_task tid db).2 tid =
        some TaskState.CALL_IN_PROGRESS.value) := by
  have hid := findTask_id_beq db tid t hfind
  by_cases hc : t.state = TaskState.COMPLETED.value
  · constructor
    · simp [execute_task, hfind, hc, isRejected]
    · intro hnt
      rw [hc] at hnt
      have hterm : isTerminalStr TaskState.COMPLETED.value = true := by decide
      rw [hterm] at hnt
      exact Bool.noConfusion hnt
  · have hne : (t.state == TaskState.COMPLETED.value) = false :=
      beq_eq_false_iff_ne.mpr hc
    constructor
    · simp [execute_task, hfind, hne, isRejected, hc]
    · intro hnt
      have hset := findTask_setTask db tid t
        { t with state := TaskState.CALL_IN_PROGRESS.value } hfind hid
      constructor
      · simp [execute_task, hfind, hne, isSuccess]
      · simp [execute_task, hfind, hne, stateIn, hset]

/-- C4 witness: the guard statement instantiated at the concrete
READY_TO_EXECUTE task. -/
theorem C4_execute_guard_witness :
    (isRejected (execute_task "t1" dbReady).1 = true ↔
      taskReady.state = TaskState.COMPLETED.value) ∧
    (isTerminalStr taskReady.state = false →
      isSuccess (execute_task "t1" dbReady).1 = true ∧
      stateIn (execute_task "t1" dbReady).2 "t1" =
        some TaskState.CALL_IN_PROGRESS.value) :=
  C4_execute_guard dbReady "t1" taskReady (by decide)

/-- C5: replan on an existing task in a non-terminal state succeeds and
sets the task's state to INIT. -/
theorem C5_replan_to_init (db : Db) (tid : String) (t : Task)
    (hfind : findTask db tid = some t)
    (_hnt : isTerminalStr t.state = false) :
    isSuccess (replan_task tid db).1 = true ∧
    stateIn (replan_task tid db).2 tid = some TaskState.INIT.value := by
  have hid := findTask_id_beq db tid t hfind
  have hset := findTask_setTask db tid t
    { t with state := TaskState.INIT.value } hfind hid
  constructor
  · simp [replan_task, hfind, isSuccess]
  · simp [replan_task, hfind, stateIn, hset]

/-- C5 witness: replan instantiated at the concrete READY_TO_EXECUTE
task. -/
theorem C5_replan_to_init_witness :
    isSuccess (replan_task "t1" dbReady).1 = true ∧
    stateIn (replan_task "t1" dbReady).2 "t1" =
      some TaskState.INIT.value :=
  C5_replan_to_init dbReady "t1" taskReady (by decide) (by decide)

/-- C6: the webhook resolves the sender over (from, sender, From) with
default "unknown", the subject over (subject, Subject) with default
"(no subject)", and the body over (text, plain, body, body-plain), each by
fixed priority with the first non-empty value winning; on the payload
carrying From = "a@x.com" and plain = "hi" it yields sender "a@x.com",
subject "(no subject)" and body "hi". -/
theorem C6_email_normalizer :
    (∀ r : EmailWebhookRequest,
      (normalizeEmail r).1 =
        firstNonEmpty [r.from_, r.sender, r.From] "unknown" ∧
      (normalizeEmail r).2.1 =
        firstNonEmpty [r.subject, r.Subject] "(no subject)" ∧
      (normalizeEmail r).2.2 =
        firstNonEmpty [r.text, r.plain, r.body, r.body_plain] "") ∧
    normalizeEmail { From := some "a@x.com", plain := some "hi" } =
      ("a@x.com", "(no subject)", "hi") := by
  constructor
  · intro r
    refine ⟨?_, ?_, ?_⟩ <;>
      simp [normalizeEmail, firstNonEmpty_cons, firstNonEmpty_nil]
  · decide

/-- C7: when the task id resolves to no task, get, get-logs, execute and
replan all fail with NotFound and leave the store untouched. -/
theorem C7_not_found (db : Db) (tid : String)
    (h : findTask db tid = none) :
    (isNotFound (get_task tid db).1 = true ∧ (get_task tid db).2 = db) ∧
    (isNotFound (get_task_logs tid db).1 = true ∧
      (get_task_logs tid db).2 = db) ∧
    (isNotFound (execute_task tid db).1 = true ∧
      (execute_task tid db).2 = db) ∧
    (isNotFound (replan_task tid db).1 = true ∧
      (replan_task tid db).2 = db) := by
  simp [get_task, get_task_logs, execute_task, replan_task, h, isNotFound]

/-- C7 witness: the NotFound statement instantiated at an empty store. -/
theorem C7_not_found_witness :
    (isNotFound (get_task "missing" dbEmpty).1 = true ∧
      (get_task "missing" dbEmpty).2 = dbEmpty) ∧
    (isNotFound (get_task_logs "missing" dbEmpty).1 = true ∧
      (get_task_logs "missing" dbEmpty).2 = dbEmpty) ∧
    (isNotFound (execute_task "missing" dbEmpty).1 = true ∧
      (execute_task "missing" dbEmpty).2 = dbEmpty) ∧
    (isNotFound (replan_task "missing" dbEmpty).1 = true ∧
      (replan_task "missing" dbEmpty).2 = dbEmpty) :=
  C7_not_found dbEmpty "missing" rfl

/-- C8: create, execute and replan preserve the invariant that every task
row's state column holds one of the nine defined enum values. -/
theorem C8_state_enum_invariant (db : Db) (body : CreateTaskRequest)
    (newId : String) (tid : String) (h : dbStatesValid db = true) :
    dbStatesValid (create_task body newId db).2 = true ∧
    dbStatesValid (execute_task tid db).2 = true ∧
    dbStatesValid (replan_task tid db).2 = true := by
  refine ⟨?_, ?_, ?_⟩
  · have hv : validState TaskState.INIT.value = true := by decide
    unfold dbStatesValid at h
    simp [create_task, dbStatesValid, List.all_append, h, hv]
  · rcases hf : findTask db tid with _ | t
    · simp [execute_task, hf, h]
    · by_cases hc : (t.state == TaskState.COMPLETED.value) = true
      · simp [execute_task, hf, hc, h]
      · have hb : (t.state == TaskState.COMPLETED.value) = false := by
          revert hc
          cases t.state == TaskState.COMPLETED.value <;> simp
        have hpres := dbStatesValid_setTask db tid
          { t with state := TaskState.CALL_IN_PROGRESS.value }
          (by decide : validState TaskState.CALL_IN_PROGRESS.value = true) h
        simp [execute_task, hf, hb, hpres]
  · rcases hf : findTask db tid with _ | t
    · simp [replan_task, hf, h]
    · have hpres := dbStatesValid_setTask db tid
        { t with state := TaskState.INIT.value }
        (by decide : validState TaskState.INIT.value = true) h
      simp [replan_task, hf, hpres]

/-- C8 witness: the invariant preservation instantiated at the concrete
store holding the READY_TO_EXECUTE task. -/
theorem C8_state_enum_invariant_witness :
    dbStatesValid (create_task reqA "t9" dbReady).2 = true ∧
    dbStatesValid (execute_task "t1" dbReady).2 = true ∧
    dbStatesValid (replan_task "t1" dbReady).2 = true :=
  C8_state_enum_invariant dbReady reqA "t9" "t1" (by decide)

/-- C9: create stores the request's goal, user id and metadata unchanged on
the new task and sets its state to INIT; the request carries no state
field, so this holds for every request — the caller cannot choose an
initial state. -/
theorem C9_create_task_init (body : CreateTaskRequest) (newId : String)
    (db : Db) (hfresh : findTask db newId = none) :
    findTask (create_task body newId db).2 newId =
      some { id := newId, user_id := body.user_id, goal := body.goal,
             state := TaskState.INIT.value,
             metadata_json := body.metadata_json } := by
  unfold findTask at hfresh
  have hstep := find?_append_of_none (fun t : Task => t.id == newId) db.tasks
    [{ id := newId, user_id := body.user_id, goal := body.goal,
       state := TaskState.INIT.value,
       metadata_json := body.metadata_json }] hfresh
  simp [findTask, create_task, hstep]

/-- C9 witness: create instantiated at the concrete request and the empty
store. -/
theorem C9_create_task_init_witness :
    findTask (create_task reqA "t9" dbEmpty).2 "t9" =
      some { id := "t9", user_id := reqA.user_id, goal := reqA.goal,
             state := TaskState.INIT.value,
             metadata_json := reqA.metadata_json } :=
  C9_create_task_init reqA "t9" dbEmpty rfl

/-- C10: the email webhook returns status "received" and leaves the store
exactly as it was: no task is created or transitioned and no log entry is
appended by an inbound email. -/
theorem C10_email_webhook_frame (r : EmailWebhookRequest) (db : Db) :
    (email_webhook_route r db).1.status = "received" ∧
    (email_webhook_route r db).2 = db :=
  ⟨rfl, rfl⟩

end TaskApp
